import Mathlib

/-!
Shallow embedding of `src/scripts/midi.py`: a bidirectional MIDI/OSC
translation engine mapping an X-TOUCH Mini control surface onto an X-AIR
mixing console.  Python floats are modelled as rationals, Python dicts as
association lists (insertion order preserved, in-place update), raised
exceptions as an explicit boolean success flag, and the external OSC
client (the pyxair collaborator) as an oracle function together with its
internal value cache.
-/

namespace Midi

abbrev Addr := String

/-- Hardware note numbers of the 16 grid buttons, position ordered
(`BUTTON_IXES` in the source). -/
def BUTTON_IXES : List Nat := [89, 90, 40, 41, 42, 43, 44, 45, 87, 88, 91, 92, 86, 93, 94, 95]

/-- Note numbers of the two layer-select buttons (`LAYER_BUTTONS`). -/
def LAYER_BUTTONS : List Nat := [84, 85]

/-- LED-ring styles, name to (base, span) (`ENCODER_STYLES`). -/
def ENCODER_STYLES : List (String × Nat × Nat) :=
  [("single", 1, 11), ("trim", 17, 9), ("fan", 33, 10), ("spread", 49, 5)]

/-- `PITCH_LIMITS = [-8192, 8096]`. -/
def PITCH_LIMITS : Int × Int := (-8192, 8096)

/-- `ZERO_VOLUME = 0.750`. -/
def ZERO_VOLUME : ℚ := 750 / 1000

/-- Lookup in a Python-dict modelled as an association list. -/
def dlookup {κ α : Type} [DecidableEq κ] : List (κ × α) → κ → Option α
  | [], _ => none
  | (k, v) :: rest, key => if k = key then some v else dlookup rest key

/-- Python-dict assignment `d[key] = val`: update in place (keeping the
key's insertion position) or append a new binding. -/
def dinsert {κ α : Type} [DecidableEq κ] : List (κ × α) → κ → α → List (κ × α)
  | [], key, val => [(key, val)]
  | (k, v) :: rest, key, val =>
      if k = key then (key, val) :: rest else (k, v) :: dinsert rest key val

/-- Python-set insertion (`ACTIVE_KEYS.add`). -/
def sinsert (s : List Addr) (k : Addr) : List Addr :=
  if k ∈ s then s else s ++ [k]

/-- Python truthiness of an optional address (`if key:` / `if address:`):
`None` and the empty string are falsy. -/
def boundAddr : Option Addr → Option Addr
  | none => none
  | some a => if a = "" then none else some a

/-- Python list subscript semantics: a nonnegative index counts from the
front, a negative index counts from the back, out of range raises
(modelled as `none`). -/
def pyGet {α : Type} (l : List α) (i : Int) : Option α :=
  if 0 ≤ i then l[i.toNat]?
  else if -(l.length : Int) ≤ i then l[l.length - (-i).toNat]?
  else none

/-- Python 3 `round`: round half to even. -/
def pyround (q : ℚ) : Int :=
  if q - ⌊q⌋ < 1 / 2 then ⌊q⌋
  else if q - ⌊q⌋ > 1 / 2 then ⌊q⌋ + 1
  else if Even ⌊q⌋ then ⌊q⌋ else ⌊q⌋ + 1

/-- Incoming MIDI message (the shapes `midi_to_input` inspects). -/
inductive MidiIn : Type where
  | control_change (control : Nat) (value : Nat)
  | note_on (note : Nat) (velocity : Nat)
  | pitchwheel (pitch : Int)
  | other
deriving DecidableEq

/-- Outgoing MIDI message (`mido.Message` sent to the surface). -/
inductive MidiOut : Type where
  | note_on (channel note velocity : Nat)
  | control_change (channel control : Nat) (value : Int)
deriving DecidableEq

/-- Semantic input events produced by the classifier
(`EncoderInput` / `ButtonInput` / `LayerSwitchInput` / `FaderInput`). -/
inductive InputEvent : Type where
  | encoder (index : Int) (diff : Int)
  | button (row : Nat) (col : Nat)
  | layerSwitch (layer_index : Nat)
  | fader (value : ℚ)
deriving DecidableEq

/-- `midi_to_input(message)`: the pure input classifier. -/
def midi_to_input : MidiIn → Option InputEvent
  | MidiIn.control_change control value =>
      some (InputEvent.encoder ((control : Int) - 16)
        (if (value : Int) > 64 then -((value : Int) - 64) else (value : Int)))
  | MidiIn.note_on note velocity =>
      if velocity ≠ 127 then none
      else if note ∈ LAYER_BUTTONS then
        some (InputEvent.layerSwitch (LAYER_BUTTONS.indexOf note))
      else if note ∈ BUTTON_IXES then
        some (InputEvent.button (BUTTON_IXES.indexOf note / 8 + 1) (BUTTON_IXES.indexOf note % 8))
      else if 32 ≤ note ∧ note ≤ 39 then
        some (InputEvent.button 0 (note - 32))
      else none
  | MidiIn.pitchwheel pitch =>
      some (InputEvent.fader
        (((pitch : ℚ) - (PITCH_LIMITS.1 : ℚ)) / ((PITCH_LIMITS.2 : ℚ) - (PITCH_LIMITS.1 : ℚ))))
  | MidiIn.other => none

/-- One layer of the configuration (§3 LayerConfig).  The list-valued keys
are assumed present (a well-formed config); the scalar options mirror the
source's optional / exception-driven lookups. -/
structure LayerConfig : Type where
  encoders : List (Option Addr)
  buttons : List (Option Addr)
  mutegroups : List (Option Addr)
  meters : List (Option Nat)
  enable_zero : Option Bool
  invert_buttons : Option Bool
  encoder_style : Option String
  encoder_sensitivity : Option ℚ
deriving DecidableEq

/-- The loaded configuration. -/
structure Config : Type where
  layers : List LayerConfig
  meter_threshold : Option ℚ
  big_fader : Option Addr
deriving DecidableEq

/-- The module-level mutable state: `OSC_CACHE`, `ACTIVE_KEYS`,
`CURRENT_LAYER`, `METER_CACHE`, `MUTEGROUP_BUTTONS`. -/
structure St : Type where
  oscCache : List (Addr × ℚ)
  activeKeys : List Addr
  currentLayer : Nat
  meterCache : List (Nat × Bool)
  mutegroupButtons : List (Nat × ℚ)
deriving DecidableEq

/-- Truthiness of a cached OSC value, with absent defaulting to false
(`OSC_CACHE.get(address, False)`). -/
def cachedTruthy (cache : List (Addr × ℚ)) (a : Addr) : Bool :=
  match dlookup cache a with
  | some v => decide (v ≠ 0)
  | none => false

/-- Modelled from the spec (external interface, §6): the OSC console
client collaborator (`pyxair`, not part of this repository) answers
`xair.get` from its internal value cache, performing a live network fetch
only when the address is absent from that cache; a failed fetch raises
(modelled as `none`). -/
def xair_get (clientCache : List (Addr × ℚ)) (live : Addr → Option ℚ) (a : Addr) : Option ℚ :=
  match dlookup clientCache a with
  | some v => some v
  | none => live a

/-- The addresses referenced by one layer, in source order
(encoders, then buttons, then mutegroups). -/
def layerKeys (l : LayerConfig) : List (Option Addr) :=
  l.encoders ++ l.buttons ++ l.mutegroups

/-- `keys` accumulated over every layer in `create_osc_cache`. -/
def allKeys (cfg : Config) : List (Option Addr) :=
  (cfg.layers.map layerKeys).flatten

/-- One iteration of the `create_osc_cache` key loop: a truthy key is
added to `ACTIVE_KEYS`; a successful `get` stores the value in
`OSC_CACHE`, a failure is logged and skipped. -/
def cacheStep (live : Addr → Option ℚ) (s : St) (okey : Option Addr) : St :=
  match boundAddr okey with
  | none => s
  | some key =>
      match live key with
      | some v =>
          { s with activeKeys := sinsert s.activeKeys key,
                   oscCache := dinsert s.oscCache key v }
      | none => { s with activeKeys := sinsert s.activeKeys key }

/-- `create_osc_cache(configuration, xair)`.  Note the source clears the
pyxair client's internal cache (so the `get`s here are live fetches,
modelled by `live`) but never clears the global `OSC_CACHE`. -/
def create_osc_cache (cfg : Config) (live : Addr → Option ℚ) (st : St) : St :=
  (allKeys cfg).foldl (cacheStep live) st

/-- The `(base, span)` pair for the layer's LED-ring style: missing key
and unknown name both fall back to `single`. -/
def encoderStyleOf (layer : LayerConfig) : Nat × Nat :=
  match layer.encoder_style with
  | none => (1, 11)
  | some name =>
      match dlookup ENCODER_STYLES name with
      | some bs => bs
      | none => (1, 11)

/-- The `for idx, mutegroup in enumerate(mutegroups)` loop of
`osc_to_midi`: record the (possibly rebound) value for every position
whose mutegroup address equals `a`. -/
def mutegroupScan (a : Addr) (v : ℚ) : Nat → List (Option Addr) → List (Nat × ℚ) → List (Nat × ℚ)
  | _, [], mg => mg
  | idx, og :: rest, mg =>
      mutegroupScan a v (idx + 1) rest (if og = some a then dinsert mg idx v else mg)

/-- `osc_to_midi(address, value, configuration, midiout)`.  Returns the
new state, the MIDI messages sent, and a success flag (false models an
uncaught exception: a missing layer, or a button position beyond
`BUTTON_IXES`).  The three role checks are sequential and independent;
note that when the button role matches and `invert_buttons` is set, the
source rebinds `value` to a boolean, which the later encoder and
mutegroup roles then observe (booleans behave as 0/1 numbers). -/
def osc_to_midi (cfg : Config) (a : Addr) (v : ℚ) (st : St) : St × List MidiOut × Bool :=
  match cfg.layers[st.currentLayer]? with
  | none => (st, [], false)
  | some layer =>
      match
        (if some a ∈ layer.buttons then
          match BUTTON_IXES[layer.buttons.indexOf (some a)]? with
          | none => none
          | some note =>
              let v1 : ℚ :=
                if decide (layer.invert_buttons = some true) then (if v = 0 then 1 else 0) else v
              some (v1, [MidiOut.note_on 0 note (if v1 = 0 then 0 else 127)])
        else some (v, [])) with
      | none => (st, [], false)
      | some (v1, ms1) =>
          let ms2 :=
            if some a ∈ layer.encoders then
              ms1 ++ [MidiOut.control_change 0 (48 + layer.encoders.indexOf (some a))
                ((encoderStyleOf layer).1 +
                  max 0 (min ((encoderStyleOf layer).2 : Int)
                    (pyround (v1 * ((encoderStyleOf layer).2 : ℚ)))))]
            else ms1
          ({ st with
              mutegroupButtons := mutegroupScan a v1 0 layer.mutegroups st.mutegroupButtons },
           ms2, true)

/-- The blanking messages of `clear_midi`: all 16 grid-button LEDs off and
all 8 encoder LED-rings at value 0. -/
def clear_midi_msgs : List MidiOut :=
  BUTTON_IXES.map (fun ix => MidiOut.note_on 0 ix 0) ++
    (List.range 8).map (fun e => MidiOut.control_change 0 (48 + e) 0)

/-- `clear_midi(midiout)`: reset `METER_CACHE` and `MUTEGROUP_BUTTONS` and
emit the blanking messages. -/
def clear_midi (st : St) : St × List MidiOut :=
  ({ st with meterCache := [], mutegroupButtons := [] }, clear_midi_msgs)

/-- One step of the `for key, value in OSC_CACHE.items()` replay loop; an
exception inside `osc_to_midi` aborts the remaining iterations. -/
def replayStep (cfg : Config) (acc : St × List MidiOut × Bool) (kv : Addr × ℚ) :
    St × List MidiOut × Bool :=
  if acc.2.2 then
    ((osc_to_midi cfg kv.1 kv.2 acc.1).1,
     acc.2.1 ++ (osc_to_midi cfg kv.1 kv.2 acc.1).2.1,
     (osc_to_midi cfg kv.1 kv.2 acc.1).2.2)
  else acc

/-- The replay half of `refresh_layer_with_cache`: feed every cached
address through `osc_to_midi`. -/
def replay_cache (cfg : Config) (st : St) : St × List MidiOut × Bool :=
  st.oscCache.foldl (replayStep cfg) (st, [], true)

/-- `refresh_layer_with_cache(configuration, midiout)`: blank the surface,
then replay the cache. -/
def refresh_layer_with_cache (cfg : Config) (st : St) : St × List MidiOut × Bool :=
  ((replay_cache cfg (clear_midi st).1).1,
   (clear_midi st).2 ++ (replay_cache cfg (clear_midi st).1).2.1,
   (replay_cache cfg (clear_midi st).1).2.2)

/-- The two layer-indicator messages of `switch_layer`: the indicator of
the new layer lit at velocity 127, every other one off. -/
def layer_indicator_msgs (k : Nat) : List MidiOut :=
  LAYER_BUTTONS.enum.map (fun p => MidiOut.note_on 0 p.2 (if p.1 = k then 127 else 0))

/-- `switch_layer(new_layer, configuration, midiout)`. -/
def switch_layer (new_layer : Nat) (cfg : Config) (st : St) : St × List MidiOut × Bool :=
  ((refresh_layer_with_cache cfg { st with currentLayer := new_layer }).1,
   layer_indicator_msgs new_layer ++
     (refresh_layer_with_cache cfg { st with currentLayer := new_layer }).2.1,
   (refresh_layer_with_cache cfg { st with currentLayer := new_layer }).2.2)

/-- Side effects issued by the dispatcher: a MIDI message to the surface
or an OSC `put` (the source always puts a singleton argument list). -/
inductive Effect : Type where
  | midiSend (m : MidiOut)
  | oscPut (a : Addr) (v : ℚ)
deriving DecidableEq

/-- `handle_midi_input(input, configuration, xair, midiout)`.  The success
flag is false when the Python code would raise out of the handler (the
surrounding `midi_event_handler` loop catches and logs it).  Confuse's
lazy views make a missing layer in the row-0 branch a `NotFoundError`,
which that branch catches and turns into a plain return. -/
def handle_midi_input (inp : InputEvent) (cfg : Config) (clientCache : List (Addr × ℚ))
    (live : Addr → Option ℚ) (st : St) : St × List Effect × Bool :=
  match inp with
  | InputEvent.layerSwitch k =>
      ((switch_layer k cfg (create_osc_cache cfg live st)).1,
       (switch_layer k cfg (create_osc_cache cfg live st)).2.1.map Effect.midiSend,
       (switch_layer k cfg (create_osc_cache cfg live st)).2.2)
  | InputEvent.button row col =>
      if row = 0 then
        match cfg.layers[st.currentLayer]? with
        | none => (st, [], true)
        | some layer =>
            match layer.enable_zero with
            | none => (st, [], true)
            | some false => (st, [], true)
            | some true =>
                match pyGet layer.encoders (col : Int) with
                | none => (st, [], false)
                | some oa =>
                    match boundAddr oa with
                    | none => (st, [], true)
                    | some a => (st, [Effect.oscPut a ZERO_VOLUME], true)
      else if row = 1 then
        match cfg.layers[st.currentLayer]? with
        | none => (st, [], false)
        | some layer =>
            match pyGet layer.buttons (col : Int) with
            | none => (st, [], false)
            | some oa =>
                match boundAddr oa with
                | none => (st, [], true)
                | some a =>
                    (st, [Effect.oscPut a (if cachedTruthy st.oscCache a then 0 else 1)], true)
      else (st, [], true)
  | InputEvent.encoder index diff =>
      match cfg.layers[st.currentLayer]? with
      | none => (st, [], false)
      | some layer =>
          match pyGet layer.encoders index with
          | none => (st, [], false)
          | some oa =>
              match boundAddr oa with
              | none => (st, [], true)
              | some a =>
                  match layer.encoder_sensitivity with
                  | none => (st, [], false)
                  | some sensitivity =>
                      match xair_get clientCache live a with
                      | none => (st, [], false)
                      | some current =>
                          (st,
                           [Effect.oscPut a
                             (if |current + (diff : ℚ) * sensitivity / 1000 - ZERO_VOLUME| <
                                  sensitivity / 1500 then
                                ZERO_VOLUME
                              else current + (diff : ℚ) * sensitivity / 1000)],
                           true)
  | InputEvent.fader value =>
      match boundAddr cfg.big_fader with
      | none => (st, [], true)
      | some fa =>
          (st,
           [Effect.oscPut fa
             (if |value - ZERO_VOLUME| < 25 / 1000 then ZERO_VOLUME else value)],
           true)

/-- One turn of the `midi_event_handler` loop: handle the event; an
exception is caught and logged and the loop continues with whatever state
mutations and sends already happened. -/
def midi_event_handler_step (inp : InputEvent) (cfg : Config) (clientCache : List (Addr × ℚ))
    (live : Addr → Option ℚ) (st : St) : St × List Effect :=
  ((handle_midi_input inp cfg clientCache live st).1,
   (handle_midi_input inp cfg clientCache live st).2.1)

/-- One iteration of the `for idx, target in enumerate(current_meters)`
loop of `handle_meters`; any per-meter exception (an out-of-range sample
or button index) is caught, logged, and skipped. -/
def meterStep (threshold : ℚ) (args : List ℚ) (idx : Nat) (t : Option Nat) (s : St)
    (ms : List MidiOut) : St × List MidiOut :=
  match t with
  | none => (s, ms)
  | some target =>
      match args[target]? with
      | none => (s, ms)
      | some v0 =>
          let light_up : Bool := decide (threshold ≤ v0 / 32768 + 1)
          if dlookup s.meterCache target = some light_up then (s, ms)
          else
            match BUTTON_IXES[idx + 8]? with
            | none => (s, ms)
            | some note =>
                ({ s with meterCache := dinsert s.meterCache target light_up },
                 ms ++ [MidiOut.note_on 0 note (if light_up then 127 else 0)])

/-- The meter loop with its running position index. -/
def metersGo (threshold : ℚ) (args : List ℚ) :
    Nat → List (Option Nat) → St → List MidiOut → St × List MidiOut
  | _, [], s, ms => (s, ms)
  | idx, t :: rest, s, ms =>
      metersGo threshold args (idx + 1) rest (meterStep threshold args idx t s ms).1
        (meterStep threshold args idx t s ms).2

/-- `handle_meters(message, configuration, midiout)` on one meter batch. -/
def handle_meters (cfg : Config) (args : List ℚ) (st : St) : St × List MidiOut × Bool :=
  match cfg.layers[st.currentLayer]? with
  | none => (st, [], false)
  | some layer =>
      ((metersGo (cfg.meter_threshold.getD (1 / 2)) args 0 layer.meters st []).1,
       (metersGo (cfg.meter_threshold.getD (1 / 2)) args 0 layer.meters st []).2,
       true)

/-- A sequence of meter batches fed through `handle_meters` in order (the
subscription loop catches any per-batch failure and continues). -/
def handle_meters_batches (cfg : Config) : List (List ℚ) → St → St × List MidiOut
  | [], st => (st, [])
  | b :: bs, st =>
      ((handle_meters_batches cfg bs (handle_meters cfg b st).1).1,
       (handle_meters cfg b st).2.1 ++
         (handle_meters_batches cfg bs (handle_meters cfg b st).1).2)

/-- Number of note messages addressed to note `n` in a message list. -/
def countNote (ms : List MidiOut) (n : Nat) : Nat :=
  (ms.filter (fun m =>
    match m with
    | MidiOut.note_on _ note _ => decide (note = n)
    | MidiOut.control_change _ _ _ => false)).length

/-! ### Basic dictionary lemmas -/

theorem dlookup_dinsert_self {κ α : Type} [DecidableEq κ] (d : List (κ × α)) (k : κ) (v : α) :
    dlookup (dinsert d k v) k = some v := by
  induction d with
  | nil => simp [dinsert, dlookup]
  | cons p rest ih =>
      by_cases h : p.1 = k
      · simp [dinsert, dlookup, h]
      · simpa [dinsert, dlookup, h] using ih

theorem dlookup_dinsert_ne {κ α : Type} [DecidableEq κ] (d : List (κ × α)) (k k2 : κ) (v : α)
    (h : k ≠ k2) : dlookup (dinsert d k v) k2 = dlookup d k2 := by
  induction d with
  | nil => simp [dinsert, dlookup, h]
  | cons p rest ih =>
      by_cases hp : p.1 = k
      · simp [dinsert, dlookup, hp, h]
      · simp [dinsert, dlookup, hp, ih]

theorem countNote_append (ms1 ms2 : List MidiOut) (n : Nat) :
    countNote (ms1 ++ ms2) n = countNote ms1 n + countNote ms2 n := by
  unfold countNote
  rw [List.filter_append, List.length_append]

/-! ### Shared concrete fixtures -/

/-- The initial module state: empty caches, layer 0. -/
def st0 : St := ⟨[], [], 0, [], []⟩

/-- A console oracle whose every live fetch fails. -/
def liveFail : Addr → Option ℚ := fun _ => none

/-! ### C2 -/

/-- C2: for every raw encoder magnitude `m` of a control_change message,
the classifier decodes the relative delta as `m` when `m ≤ 64` and as
`-(m-64)` when `m > 64`, and returns an `EncoderInput` carrying it. -/
theorem c2_encoder_delta_decoding (control m : Nat) :
    midi_to_input (MidiIn.control_change control m) =
      some (InputEvent.encoder ((control : Int) - 16)
        (if m ≤ 64 then (m : Int) else -((m : Int) - 64))) := by
  by_cases h : m ≤ 64
  · have h2 : ¬((m : Int) > 64) := by omega
    simp [midi_to_input, h, h2]
  · have h2 : (m : Int) > 64 := by omega
    simp [midi_to_input, h, h2]

/-! ### C3 -/

/-- C3: whenever the dispatcher handles an `EncoderInput` bound to an
address and the candidate value `current + diff*sens/1000` lies within
`sens/1500` of `ZERO_VOLUME = 0.75`, the value issued via `put` is exactly
`ZERO_VOLUME`. -/
theorem c3_encoder_detent (cfg : Config) (cc : List (Addr × ℚ)) (live : Addr → Option ℚ)
    (st : St) (layer : LayerConfig) (index diff : Int) (oa : Option Addr) (a : Addr)
    (sens current : ℚ)
    (hlayer : cfg.layers[st.currentLayer]? = some layer)
    (henc : pyGet layer.encoders index = some oa)
    (hba : boundAddr oa = some a)
    (hsens : layer.encoder_sensitivity = some sens)
    (hcur : xair_get cc live a = some current)
    (hdet : |current + (diff : ℚ) * sens / 1000 - ZERO_VOLUME| < sens / 1500) :
    handle_midi_input (InputEvent.encoder index diff) cfg cc live st =
      (st, [Effect.oscPut a ZERO_VOLUME], true) := by
  simp only [handle_midi_input, hlayer, henc, hba, hsens, hcur, if_pos hdet]

/-- Layer configuration used by the C3 witness. -/
def layerW3 : LayerConfig :=
  { encoders := [some "/lr/mix/fader"], buttons := [], mutegroups := [], meters := [],
    enable_zero := none, invert_buttons := none, encoder_style := none,
    encoder_sensitivity := some 10 }

/-- Configuration used by the C3 witness. -/
def cfgW3 : Config := { layers := [layerW3], meter_threshold := none, big_fader := none }

/-- Witness for C3: cached value 0.74, sensitivity 10, delta +1 lands at
0.75, inside the detent window, so exactly `ZERO_VOLUME` is put. -/
theorem c3_encoder_detent_witness :
    handle_midi_input (InputEvent.encoder 0 1) cfgW3 [("/lr/mix/fader", 74 / 100)]
      liveFail st0 = (st0, [Effect.oscPut "/lr/mix/fader" ZERO_VOLUME], true) :=
  c3_encoder_detent cfgW3 [("/lr/mix/fader", 74 / 100)] liveFail st0 layerW3 0 1
    (some "/lr/mix/fader") "/lr/mix/fader" 10 (74 / 100) rfl rfl rfl rfl rfl
    (by rw [ZERO_VOLUME]; norm_num)

/-! ### C5 -/

/-- A layer binding the same address to a button and to an encoder. -/
def layerC5 : LayerConfig :=
  { encoders := [some "/x"], buttons := [some "/x"], mutegroups := [], meters := [],
    enable_zero := none, invert_buttons := none, encoder_style := none,
    encoder_sensitivity := some 10 }

/-- Configuration for the C5 counterexample. -/
def cfgC5 : Config := { layers := [layerC5], meter_threshold := none, big_fader := none }

/-- Counterexample to C5: the three role checks of `osc_to_midi` are
independent `if`s, not mutually exclusive, so an address bound both as a
button and as an encoder produces a button-LED note message and an
encoder-ring control-change from one single feedback call. -/
theorem c5_counterexample :
    MidiOut.note_on 0 89 127 ∈ (osc_to_midi cfgC5 "/x" 1 st0).2.1 ∧
    MidiOut.control_change 0 48 12 ∈ (osc_to_midi cfgC5 "/x" 1 st0).2.1 := by
  simp +decide [osc_to_midi, cfgC5, layerC5, st0, BUTTON_IXES, encoderStyleOf, pyround,
    List.indexOf, List.findIdx, List.findIdx.go]

theorem mutegroupScan_of_not_mem (a : Addr) (v : ℚ) (l : List (Option Addr))
    (h : some a ∉ l) : ∀ (j : Nat) (mg : List (Nat × ℚ)), mutegroupScan a v j l mg = mg := by
  induction l with
  | nil => intro j mg; rfl
  | cons og rest ih =>
      intro j mg
      simp only [List.mem_cons, not_or] at h
      rw [mutegroupScan, if_neg (fun he => h.1 he.symm), ih h.2]

/-- C5 amended: each of the three role checks of `osc_to_midi` fires
independently, so output under a role occurs only when the address is
bound under that role; consequently an address bound in at most one of
the three lists of the current layer produces surface output under at
most one role (while an address bound under several roles produces output
under each of them, as the counterexample shows). -/
theorem c5_roles_amended (cfg : Config) (a : Addr) (v : ℚ) (st : St) (layer : LayerConfig)
    (hlayer : cfg.layers[st.currentLayer]? = some layer) :
    (some a ∉ layer.buttons →
      ∀ ch n velo, MidiOut.note_on ch n velo ∉ (osc_to_midi cfg a v st).2.1) ∧
    (some a ∉ layer.encoders →
      ∀ ch c w, MidiOut.control_change ch c w ∉ (osc_to_midi cfg a v st).2.1) ∧
    (some a ∉ layer.mutegroups →
      (osc_to_midi cfg a v st).1.mutegroupButtons = st.mutegroupButtons) := by
  refine ⟨?_, ?_, ?_⟩
  · intro hb ch n velo
    simp only [osc_to_midi, hlayer, if_neg hb]
    split <;> simp
  · intro he ch c w
    by_cases hbm : some a ∈ layer.buttons
    · simp only [osc_to_midi, hlayer, if_pos hbm, if_neg he]
      cases hBI : BUTTON_IXES[layer.buttons.indexOf (some a)]? with
      | none => simp [hBI]
      | some note => simp [hBI]
    · simp only [osc_to_midi, hlayer, if_neg hbm, if_neg he]
      simp
  · intro hm
    simp only [osc_to_midi, hlayer]
    split
    · rfl
    · exact mutegroupScan_of_not_mem a _ _ hm 0 _

/-- Layer for the C5 amended-claim witness: the address is bound only as
a button. -/
def layerW5 : LayerConfig :=
  { encoders := [], buttons := [some "/y"], mutegroups := [], meters := [],
    enable_zero := none, invert_buttons := none, encoder_style := none,
    encoder_sensitivity := none }

/-- Configuration for the C5 amended-claim witness. -/
def cfgW5 : Config := { layers := [layerW5], meter_threshold := none, big_fader := none }

/-- Witness for the amended C5: an address bound only as a button never
produces an encoder-ring control-change, and leaves the mutegroup set
untouched. -/
theorem c5_roles_amended_witness :
    MidiOut.control_change 0 48 12 ∉ (osc_to_midi cfgW5 "/y" 1 st0).2.1 ∧
    (osc_to_midi cfgW5 "/y" 1 st0).1.mutegroupButtons = st0.mutegroupButtons :=
  ⟨(c5_roles_amended cfgW5 "/y" 1 st0 layerW5 rfl).2.1 (by decide) 0 48 12,
   (c5_roles_amended cfgW5 "/y" 1 st0 layerW5 rfl).2.2 (by decide)⟩

/-! ### C6 -/

/-- Layer configuration for the C6 counterexample. -/
def layerC6 : LayerConfig :=
  { encoders := [some "/a"], buttons := [], mutegroups := [], meters := [],
    enable_zero := none, invert_buttons := none, encoder_style := none,
    encoder_sensitivity := none }

/-- Configuration for the C6 counterexample. -/
def cfgC6 : Config := { layers := [layerC6], meter_threshold := none, big_fader := none }

/-- A pre-rebuild state already holding a value for `/a`. -/
def stC6 : St := ⟨[("/a", 3)], [], 0, [], []⟩

/-- Counterexample to C6: on a rebuild (layer switch), the address `/a`
is in the active set and its `get` fails, yet it is not absent from
`OscCache` — the stale pre-rebuild value 3 persists, because
`create_osc_cache` never clears the global `OSC_CACHE`. -/
theorem c6_counterexample :
    liveFail "/a" = none ∧
    "/a" ∈ (create_osc_cache cfgC6 liveFail stC6).activeKeys ∧
    dlookup (create_osc_cache cfgC6 liveFail stC6).oscCache "/a" = some 3 := by
  refine ⟨rfl, ?_, ?_⟩ <;> decide

theorem foldl_cacheStep_fail (live : Addr → Option ℚ) (a : Addr) (hfail : live a = none) :
    ∀ (keys : List (Option Addr)) (s : St),
      dlookup (keys.foldl (cacheStep live) s).oscCache a = dlookup s.oscCache a := by
  intro keys
  induction keys with
  | nil => intro s; rfl
  | cons k rest ih =>
      intro s
      rw [List.foldl_cons, ih]
      cases hb : boundAddr k with
      | none => simp [cacheStep, hb]
      | some key =>
          cases hl : live key with
          | none => simp [cacheStep, hb, hl]
          | some v =>
              have hk : key ≠ a := fun he => by rw [he, hfail] at hl; cases hl
              simp [cacheStep, hb, hl, dlookup_dinsert_ne _ _ _ _ hk]

theorem foldl_cacheStep_success (live : Addr → Option ℚ) (b : Addr) (v : ℚ)
    (hs : live b = some v) :
    ∀ (keys : List (Option Addr)) (s : St),
      ((some b ∈ keys ∧ b ≠ "") ∨ dlookup s.oscCache b = some v) →
      dlookup (keys.foldl (cacheStep live) s).oscCache b = some v := by
  intro keys
  induction keys with
  | nil =>
      intro s h
      rcases h with ⟨hmem, -⟩ | h
      · cases hmem
      · exact h
  | cons k rest ih =>
      intro s h
      rw [List.foldl_cons]
      apply ih
      rcases h with ⟨hmem, hb⟩ | hcache
      · rcases List.mem_cons.mp hmem with heq | hmem2
        · right
          have hbd : boundAddr k = some b := by rw [← heq]; simp [boundAddr, hb]
          simp [cacheStep, hbd, hs, dlookup_dinsert_self]
        · exact Or.inl ⟨hmem2, hb⟩
      · right
        cases hbk : boundAddr k with
        | none => simpa [cacheStep, hbk] using hcache
        | some key =>
            cases hl : live key with
            | none => simpa [cacheStep, hbk, hl] using hcache
            | some w =>
                by_cases hkb : key = b
                · subst hkb
                  rw [hs] at hl
                  injection hl with hw
                  subst hw
                  simp [cacheStep, hbk, hs, dlookup_dinsert_self]
                · have hoc : (cacheStep live s k).oscCache = dinsert s.oscCache key w := by
                    simp [cacheStep, hbk, hl]
                  rw [hoc, dlookup_dinsert_ne _ _ _ _ hkb]
                  exact hcache

/-- C6 amended: after a cache rebuild, an address whose `get` failed keeps
exactly its pre-rebuild cache entry — in particular it is absent when it
was absent before (as at startup, where the cache is empty), but a stale
pre-rebuild value persists rather than being removed; the failure is not
fatal: every configured address whose `get` succeeds is cached with the
fetched value. -/
theorem c6_rebuild_amended (cfg : Config) (live : Addr → Option ℚ) (st : St) (a : Addr)
    (hfail : live a = none) :
    dlookup (create_osc_cache cfg live st).oscCache a = dlookup st.oscCache a ∧
    (dlookup st.oscCache a = none →
      dlookup (create_osc_cache cfg live st).oscCache a = none) ∧
    (∀ (b : Addr) (v : ℚ), some b ∈ allKeys cfg → b ≠ "" → live b = some v →
      dlookup (create_osc_cache cfg live st).oscCache b = some v) := by
  refine ⟨foldl_cacheStep_fail live a hfail (allKeys cfg) st, ?_, ?_⟩
  · intro h
    rw [create_osc_cache, foldl_cacheStep_fail live a hfail (allKeys cfg) st, h]
  · intro b v hmem hb hs
    exact foldl_cacheStep_success live b v hs (allKeys cfg) st (Or.inl ⟨hmem, hb⟩)

/-- Layer configuration for the C6 amended-claim witness. -/
def layerW6 : LayerConfig :=
  { encoders := [some "/a", some "/b"], buttons := [], mutegroups := [], meters := [],
    enable_zero := none, invert_buttons := none, encoder_style := none,
    encoder_sensitivity := none }

/-- Configuration for the C6 amended-claim witness. -/
def cfgW6 : Config := { layers := [layerW6], meter_threshold := none, big_fader := none }

/-- A console oracle that fails for `/a` and answers 2 for `/b`. -/
def liveW6 : Addr → Option ℚ := fun x => if x = "/b" then some 2 else none

/-- Witness for the amended C6: starting from an empty cache, the failed
address `/a` stays absent while the rebuild still caches `/b`. -/
theorem c6_rebuild_amended_witness :
    dlookup (create_osc_cache cfgW6 liveW6 st0).oscCache "/a" = none ∧
    dlookup (create_osc_cache cfgW6 liveW6 st0).oscCache "/b" = some 2 :=
  ⟨(c6_rebuild_amended cfgW6 liveW6 st0 "/a" rfl).2.1 rfl,
   (c6_rebuild_amended cfgW6 liveW6 st0 "/a" rfl).2.2 "/b" 2 (by decide) (by decide) rfl⟩

/-! ### C7 -/

/-- A layer with all 16 grid-button positions bound. -/
def layerC7 : LayerConfig :=
  { encoders := [],
    buttons := [some "/b00", some "/b01", some "/b02", some "/b03", some "/b04", some "/b05",
      some "/b06", some "/b07", some "/b08", some "/b09", some "/b10", some "/b11",
      some "/b12", some "/b13", some "/b14", some "/b15"],
    mutegroups := [], meters := [], enable_zero := none, invert_buttons := none,
    encoder_style := none, encoder_sensitivity := none }

/-- Configuration for the C7 counterexample. -/
def cfgC7 : Config := { layers := [layerC7], meter_threshold := none, big_fader := none }

/-- Counterexample to C7: the dispatcher only handles `row == 1`; a press
on grid row 2 (even with every button position bound) silently issues
nothing, while the same press on row 1 issues the toggled `put`. -/
theorem c7_counterexample :
    handle_midi_input (InputEvent.button 2 0) cfgC7 [] liveFail st0 = (st0, [], true) ∧
    handle_midi_input (InputEvent.button 1 0) cfgC7 [] liveFail st0 =
      (st0, [Effect.oscPut "/b00" 1], true) := by
  constructor
  · rfl
  · simp +decide [handle_midi_input, cfgC7, layerC7, st0, pyGet, boundAddr, cachedTruthy,
      dlookup]

/-- C7 amended: only a `ButtonInput` with `row = 1` whose position is
bound toggles via `put(address, not cachedBooleanValue)` (cached-absent
defaulting to false); an unbound row-1 position issues nothing, and a
press with `row ≥ 2` is silently ignored by the dispatcher. -/
theorem c7_button_toggle_amended (cfg : Config) (cc : List (Addr × ℚ))
    (live : Addr → Option ℚ) (st : St) (col : Nat) (layer : LayerConfig) (oa : Option Addr)
    (hlayer : cfg.layers[st.currentLayer]? = some layer)
    (hbtn : pyGet layer.buttons (col : Int) = some oa) :
    (∀ a, boundAddr oa = some a →
      handle_midi_input (InputEvent.button 1 col) cfg cc live st =
        (st, [Effect.oscPut a (if cachedTruthy st.oscCache a then 0 else 1)], true)) ∧
    (boundAddr oa = none →
      handle_midi_input (InputEvent.button 1 col) cfg cc live st = (st, [], true)) ∧
    (∀ row, 2 ≤ row →
      handle_midi_input (InputEvent.button row col) cfg cc live st = (st, [], true)) := by
  refine ⟨?_, ?_, ?_⟩
  · intro a hba
    simp only [handle_midi_input, hlayer, hbtn, hba]
    norm_num
  · intro hba
    simp only [handle_midi_input, hlayer, hbtn, hba]
    norm_num
  · intro row hrow
    have h0 : ¬(row = 0) := by omega
    have h1 : ¬(row = 1) := by omega
    simp only [handle_midi_input, if_neg h0, if_neg h1]

/-- Witness for the amended C7: a bound row-1 press toggles (absent cache
entry, so `put 1`); a row-2 press is ignored. -/
theorem c7_button_toggle_amended_witness :
    handle_midi_input (InputEvent.button 1 2) cfgC7 [] liveFail st0 =
      (st0, [Effect.oscPut "/b02" (if cachedTruthy st0.oscCache "/b02" then 0 else 1)], true) ∧
    handle_midi_input (InputEvent.button 5 2) cfgC7 [] liveFail st0 = (st0, [], true) :=
  ⟨(c7_button_toggle_amended cfgC7 [] liveFail st0 2 layerC7 (some "/b02") rfl rfl).1
      "/b02" rfl,
   (c7_button_toggle_amended cfgC7 [] liveFail st0 2 layerC7 (some "/b02") rfl rfl).2.2
      5 (by decide)⟩

/-! ### C8 -/

theorem metersGo_frame (thr : ℚ) (args : List ℚ) :
    ∀ (ts : List (Option Nat)) (j : Nat) (s : St) (ms : List MidiOut),
      (metersGo thr args j ts s ms).1.oscCache = s.oscCache ∧
      (metersGo thr args j ts s ms).1.currentLayer = s.currentLayer ∧
      (metersGo thr args j ts s ms).1.activeKeys = s.activeKeys ∧
      (metersGo thr args j ts s ms).1.mutegroupButtons = s.mutegroupButtons := by
  intro ts
  induction ts with
  | nil => intro j s ms; exact ⟨rfl, rfl, rfl, rfl⟩
  | cons t rest ih =>
      intro j s ms
      have hstep : (meterStep thr args j t s ms).1.oscCache = s.oscCache ∧
          (meterStep thr args j t s ms).1.currentLayer = s.currentLayer ∧
          (meterStep thr args j t s ms).1.activeKeys = s.activeKeys ∧
          (meterStep thr args j t s ms).1.mutegroupButtons = s.mutegroupButtons := by
        simp only [meterStep]
        repeat' split
        all_goals exact ⟨rfl, rfl, rfl, rfl⟩
      obtain ⟨h1, h2, h3, h4⟩ :=
        ih (j + 1) (meterStep thr args j t s ms).1 (meterStep thr args j t s ms).2
      rw [metersGo]
      exact ⟨h1.trans hstep.1, h2.trans hstep.2.1, h3.trans hstep.2.2.1,
        h4.trans hstep.2.2.2⟩

/-- C8: `OscCache` is written only by confirmed console feedback and the
startup/switch rebuild — handling an `EncoderInput`, `ButtonInput` or
`FaderInput` leaves the whole state (in particular `OscCache`) unchanged,
and the meter handler never mutates `OscCache`. -/
theorem c8_cache_single_writer (cfg : Config) (cc : List (Addr × ℚ))
    (live : Addr → Option ℚ) (st : St) :
    (∀ index diff : Int,
      (handle_midi_input (InputEvent.encoder index diff) cfg cc live st).1.oscCache =
        st.oscCache) ∧
    (∀ row col : Nat,
      (handle_midi_input (InputEvent.button row col) cfg cc live st).1.oscCache =
        st.oscCache) ∧
    (∀ v : ℚ,
      (handle_midi_input (InputEvent.fader v) cfg cc live st).1.oscCache = st.oscCache) ∧
    (∀ args : List ℚ, (handle_meters cfg args st).1.oscCache = st.oscCache) := by
  refine ⟨?_, ?_, ?_, ?_⟩
  · intro index diff
    simp only [handle_midi_input]
    repeat' split
    all_goals rfl
  · intro row col
    simp only [handle_midi_input]
    repeat' split
    all_goals rfl
  · intro v
    simp only [handle_midi_input]
    repeat' split
    all_goals rfl
  · intro args
    unfold handle_meters
    split
    · rfl
    · exact (metersGo_frame _ args _ 0 st []).1

/-! ### C9 -/

/-- Layer configuration of the C9 end-to-end scenario: encoder 0 bound to
`/ch/01/mix/fader`, sensitivity 10. -/
def layerC9 : LayerConfig :=
  { encoders := [some "/ch/01/mix/fader"], buttons := [], mutegroups := [], meters := [],
    enable_zero := none, invert_buttons := none, encoder_style := none,
    encoder_sensitivity := some 10 }

/-- Configuration of the C9 scenario. -/
def cfgC9 : Config := { layers := [layerC9], meter_threshold := none, big_fader := none }

/-- C9: the dispatcher reads the authoritative current value through the
console client's cached `get` — when the address is cached no live fetch
is consulted (the result is independent of the live oracle) — and in the
concrete scenario (encoder 0 bound, cached value 0.5, sensitivity 10,
delta +7) it issues `put("/ch/01/mix/fader", 0.57)` with no detent. -/
theorem c9_cached_read_and_scenario :
    (∀ (cc : List (Addr × ℚ)) (liveA liveB : Addr → Option ℚ) (a : Addr) (v : ℚ),
      dlookup cc a = some v →
      xair_get cc liveA a = some v ∧ xair_get cc liveA a = xair_get cc liveB a) ∧
    (∀ live : Addr → Option ℚ,
      handle_midi_input (InputEvent.encoder 0 7) cfgC9 [("/ch/01/mix/fader", 1 / 2)]
        live st0 = (st0, [Effect.oscPut "/ch/01/mix/fader" (57 / 100)], true)) := by
  constructor
  · intro cc liveA liveB a v h
    unfold xair_get
    rw [h]
    exact ⟨rfl, rfl⟩
  · intro live
    simp +decide [handle_midi_input, cfgC9, layerC9, st0, pyGet, boundAddr, xair_get,
      dlookup, ZERO_VOLUME]
    rw [if_neg (by
      rw [abs_of_nonpos (show (2 : ℚ)⁻¹ + 7 * 10 / 1000 - 750 / 1000 ≤ 0 by norm_num)]
      norm_num)]
    norm_num

/-- Witness for C9: both halves applied at concrete inputs. -/
theorem c9_cached_read_and_scenario_witness :
    xair_get [("/x", 2)] liveFail "/x" = some 2 ∧
    handle_midi_input (InputEvent.encoder 0 7) cfgC9 [("/ch/01/mix/fader", 1 / 2)]
      liveFail st0 = (st0, [Effect.oscPut "/ch/01/mix/fader" (57 / 100)], true) :=
  ⟨(c9_cached_read_and_scenario.1 [("/x", 2)] liveFail liveFail "/x" 2 rfl).1,
   c9_cached_read_and_scenario.2 liveFail⟩

/-! ### C10 -/

/-- A layer binding all 8 encoders, used for the C10 negative-index
demonstration. -/
def layerC10 : LayerConfig :=
  { encoders := [some "/e0", some "/e1", some "/e2", some "/e3", some "/e4", some "/e5",
      some "/e6", some "/e7"],
    buttons := [], mutegroups := [], meters := [], enable_zero := none,
    invert_buttons := none, encoder_style := none, encoder_sensitivity := some 10 }

/-- Configuration for the C10 demonstration. -/
def cfgC10 : Config := { layers := [layerC10], meter_threshold := none, big_fader := none }

/-- Counterexample to C10 as frozen: a control number below 16 does *not*
always silently index the encoder list from the end — control 0 yields
index -16, and on the 8-entry encoder list the Python subscript raises
IndexError (out of range even for negative indexing), so the dispatcher
issues nothing and the handler loop catches and logs the error, exactly
as in the control > 23 case. -/
theorem c10_counterexample :
    midi_to_input (MidiIn.control_change 0 1) = some (InputEvent.encoder (-16) 1) ∧
    pyGet layerC10.encoders (-16) = none ∧
    handle_midi_input (InputEvent.encoder (-16) 1) cfgC10 [] liveFail st0 =
      (st0, [], false) ∧
    midi_event_handler_step (InputEvent.encoder (-16) 1) cfgC10 [] liveFail st0 =
      (st0, []) := by
  refine ⟨?_, ?_, ?_, ?_⟩ <;> rfl

/-- C10 (amended): the classifier turns every control_change into an
`EncoderInput` with `index = control - 16` and no range check.  With the
8 configured encoders, an index outside [-8, 7] — a control above 23 or
below 8 — makes the dispatcher's list subscript raise out-of-range (the
handler loop catches and logs it: state unchanged, nothing issued);
only a control in 8..15 yields a negative index in [-8, -1] that
silently indexes the encoder list from the end instead of being rejected
— in the concrete demonstration, control 15 (index -1) drives the *last*
encoder address `/e7`. -/
theorem c10_unchecked_encoder_index (cfg : Config) (cc : List (Addr × ℚ))
    (live : Addr → Option ℚ) (st : St) (layer : LayerConfig) :
    (∀ control value : Nat,
      ∃ d, midi_to_input (MidiIn.control_change control value) =
        some (InputEvent.encoder ((control : Int) - 16) d)) ∧
    (∀ (l : List (Option Addr)), l.length = 8 → ∀ i : Int, 8 ≤ i ∨ i < -8 →
      pyGet l i = none) ∧
    (cfg.layers[st.currentLayer]? = some layer → layer.encoders.length = 8 →
      ∀ i : Int, 8 ≤ i ∨ i < -8 → ∀ d : Int,
        handle_midi_input (InputEvent.encoder i d) cfg cc live st = (st, [], false) ∧
        midi_event_handler_step (InputEvent.encoder i d) cfg cc live st = (st, [])) ∧
    (∀ (l : List (Option Addr)), l.length = 8 → ∀ i : Int, -8 ≤ i → i < 0 →
      pyGet l i = l[l.length - (-i).toNat]? ∧ pyGet l i ≠ none) ∧
    (∀ live2 : Addr → Option ℚ,
      handle_midi_input (InputEvent.encoder (-1) 0) cfgC10 [("/e7", 2)] live2 st0 =
        (st0, [Effect.oscPut "/e7" 2], true)) := by
  have hpyOut : ∀ (l : List (Option Addr)), l.length = 8 → ∀ i : Int, 8 ≤ i ∨ i < -8 →
      pyGet l i = none := by
    intro l hlen i hi
    rcases hi with hi | hi
    · rw [pyGet, if_pos (by omega)]
      exact List.getElem?_eq_none (by omega)
    · rw [pyGet, if_neg (by omega), if_neg (by omega)]
  refine ⟨?_, hpyOut, ?_, ?_, ?_⟩
  · intro control value
    exact ⟨_, rfl⟩
  · intro hlayer hlen i hi d
    have hp : pyGet layer.encoders i = none := hpyOut layer.encoders hlen i hi
    constructor
    · simp only [handle_midi_input, hlayer, hp]
    · simp only [midi_event_handler_step, handle_midi_input, hlayer, hp]
  · intro l hlen i hneg hlt
    have h0 : ¬(0 ≤ i) := by omega
    have h1 : -(l.length : Int) ≤ i := by omega
    refine ⟨by rw [pyGet, if_neg h0, if_pos h1], ?_⟩
    rw [pyGet, if_neg h0, if_pos h1]
    intro hnone
    rw [List.getElem?_eq_none_iff] at hnone
    omega
  · intro live2
    simp +decide [handle_midi_input, cfgC10, layerC10, st0, pyGet, boundAddr, xair_get,
      dlookup, ZERO_VOLUME]
    intro h
    rw [abs_of_nonneg (show (0 : ℚ) ≤ 2 - 750 / 1000 by norm_num)] at h
    norm_num at h

/-- Witness for the amended C10: every part applied at concrete inputs —
index 14 (control 30) and index -16 (control 0) both raise, index -1
(control 15) silently drives the last encoder. -/
theorem c10_unchecked_encoder_index_witness :
    (∃ d, midi_to_input (MidiIn.control_change 30 1) =
      some (InputEvent.encoder 14 d)) ∧
    pyGet layerC10.encoders 14 = none ∧
    pyGet layerC10.encoders (-16) = none ∧
    handle_midi_input (InputEvent.encoder 14 1) cfgC10 [] liveFail st0 = (st0, [], false) ∧
    handle_midi_input (InputEvent.encoder (-16) 1) cfgC10 [] liveFail st0 =
      (st0, [], false) ∧
    pyGet layerC10.encoders (-1) ≠ none ∧
    handle_midi_input (InputEvent.encoder (-1) 0) cfgC10 [("/e7", 2)] liveFail st0 =
      (st0, [Effect.oscPut "/e7" 2], true) := by
  obtain ⟨h1, h2, h3, h4, h5⟩ :=
    c10_unchecked_encoder_index cfgC10 [] liveFail st0 layerC10
  exact ⟨show ∃ d, _ = some (InputEvent.encoder ((30 : Int) - 16) d) from h1 30 1,
    h2 layerC10.encoders rfl 14 (Or.inl (by norm_num)),
    h2 layerC10.encoders rfl (-16) (Or.inr (by norm_num)),
    (h3 rfl rfl 14 (Or.inl (by norm_num)) 1).1,
    (h3 rfl rfl (-16) (Or.inr (by norm_num)) 1).1,
    (h4 layerC10.encoders rfl (-1) (by norm_num) (by norm_num)).2,
    h5 liveFail⟩

/-! ### C1 -/

theorem osc_to_midi_frame (cfg : Config) (a : Addr) (v : ℚ) (s : St) :
    (osc_to_midi cfg a v s).1.oscCache = s.oscCache ∧
    (osc_to_midi cfg a v s).1.currentLayer = s.currentLayer ∧
    (osc_to_midi cfg a v s).1.activeKeys = s.activeKeys ∧
    (osc_to_midi cfg a v s).1.meterCache = s.meterCache := by
  unfold osc_to_midi
  repeat' split
  all_goals exact ⟨rfl, rfl, rfl, rfl⟩

theorem replay_fold_frame (cfg : Config) :
    ∀ (l : List (Addr × ℚ)) (acc : St × List MidiOut × Bool),
      (l.foldl (replayStep cfg) acc).1.oscCache = acc.1.oscCache ∧
      (l.foldl (replayStep cfg) acc).1.currentLayer = acc.1.currentLayer ∧
      (l.foldl (replayStep cfg) acc).1.activeKeys = acc.1.activeKeys ∧
      (l.foldl (replayStep cfg) acc).1.meterCache = acc.1.meterCache := by
  intro l
  induction l with
  | nil => intro acc; exact ⟨rfl, rfl, rfl, rfl⟩
  | cons kv rest ih =>
      intro acc
      rw [List.foldl_cons]
      obtain ⟨h1, h2, h3, h4⟩ := ih (replayStep cfg acc kv)
      have hs : (replayStep cfg acc kv).1.oscCache = acc.1.oscCache ∧
          (replayStep cfg acc kv).1.currentLayer = acc.1.currentLayer ∧
          (replayStep cfg acc kv).1.activeKeys = acc.1.activeKeys ∧
          (replayStep cfg acc kv).1.meterCache = acc.1.meterCache := by
        unfold replayStep
        split
        · exact osc_to_midi_frame cfg kv.1 kv.2 acc.1
        · exact ⟨rfl, rfl, rfl, rfl⟩
      exact ⟨h1.trans hs.1, h2.trans hs.2.1, h3.trans hs.2.2.1, h4.trans hs.2.2.2⟩

/-- The state right after `clear_midi` inside a switch to layer `k`:
cache rebuilt from the console, current layer set, meter and mutegroup
caches emptied. -/
def layer_switch_cleared (cfg : Config) (live : Addr → Option ℚ) (st : St) (k : Nat) : St :=
  (clear_midi { create_osc_cache cfg live st with currentLayer := k }).1

/-- C1: processing `LayerSwitchInput{k}` for a valid layer index leaves
`CurrentLayer = k`; the surface output is the two layer indicators
(exactly the one for `k` lit at velocity 127, the other off), then the
full blanking of all 16 grid-button LEDs and all 8 encoder rings, then
the cache replay — and the replay starts from a state whose
`MeterLightCache` and `MutegroupEngagedSet` are empty. -/
theorem c1_layer_switch_resync (cfg : Config) (cc : List (Addr × ℚ))
    (live : Addr → Option ℚ) (st : St) (k : Nat) (hk : k < LAYER_BUTTONS.length) :
    handle_midi_input (InputEvent.layerSwitch k) cfg cc live st =
      ((replay_cache cfg (layer_switch_cleared cfg live st k)).1,
       (layer_indicator_msgs k ++ clear_midi_msgs ++
         (replay_cache cfg (layer_switch_cleared cfg live st k)).2.1).map Effect.midiSend,
       (replay_cache cfg (layer_switch_cleared cfg live st k)).2.2) ∧
    (handle_midi_input (InputEvent.layerSwitch k) cfg cc live st).1.currentLayer = k ∧
    (handle_midi_input (InputEvent.layerSwitch k) cfg cc live st).1.meterCache = [] ∧
    (layer_switch_cleared cfg live st k).meterCache = [] ∧
    (layer_switch_cleared cfg live st k).mutegroupButtons = [] ∧
    (∀ n ∈ BUTTON_IXES, MidiOut.note_on 0 n 0 ∈ clear_midi_msgs) ∧
    (∀ e : Nat, e < 8 → MidiOut.control_change 0 (48 + e) 0 ∈ clear_midi_msgs) ∧
    ((k = 0 ∧ layer_indicator_msgs k = [MidiOut.note_on 0 84 127, MidiOut.note_on 0 85 0]) ∨
     (k = 1 ∧ layer_indicator_msgs k = [MidiOut.note_on 0 84 0, MidiOut.note_on 0 85 127])) := by
  have hmain : handle_midi_input (InputEvent.layerSwitch k) cfg cc live st =
      ((replay_cache cfg (layer_switch_cleared cfg live st k)).1,
       (layer_indicator_msgs k ++ clear_midi_msgs ++
         (replay_cache cfg (layer_switch_cleared cfg live st k)).2.1).map Effect.midiSend,
       (replay_cache cfg (layer_switch_cleared cfg live st k)).2.2) := by
    simp only [handle_midi_input, switch_layer, refresh_layer_with_cache, clear_midi,
      layer_switch_cleared, List.append_assoc]
  have hframe := replay_fold_frame cfg (layer_switch_cleared cfg live st k).oscCache
    ((layer_switch_cleared cfg live st k), [], true)
  refine ⟨hmain, ?_, ?_, rfl, rfl, by decide, by decide, ?_⟩
  · rw [hmain]
    exact hframe.2.1
  · rw [hmain]
    exact hframe.2.2.2
  · have hk2 : k < 2 := by simpa [LAYER_BUTTONS] using hk
    interval_cases k
    · exact Or.inl ⟨rfl, by decide⟩
    · exact Or.inr ⟨rfl, by decide⟩

/-- An empty configuration for the C1 witness. -/
def cfg0 : Config := { layers := [], meter_threshold := none, big_fader := none }

/-- Witness for C1: switching to layer 1 leaves `CurrentLayer = 1` and an
empty meter cache, with indicator 85 lit and 84 off. -/
theorem c1_layer_switch_resync_witness :
    (handle_midi_input (InputEvent.layerSwitch 1) cfg0 [] liveFail st0).1.currentLayer = 1 ∧
    (handle_midi_input (InputEvent.layerSwitch 1) cfg0 [] liveFail st0).1.meterCache = [] ∧
    layer_indicator_msgs 1 = [MidiOut.note_on 0 84 0, MidiOut.note_on 0 85 127] := by
  obtain ⟨-, h2, h3, -, -, -, -, h8⟩ :=
    c1_layer_switch_resync cfg0 [] liveFail st0 1 (by decide)
  refine ⟨h2, h3, ?_⟩
  rcases h8 with ⟨h, -⟩ | ⟨-, h⟩
  · cases h
  · exact h

/-! ### C4 -/

theorem countNote_single_note (ch note velo n : Nat) :
    countNote [MidiOut.note_on ch note velo] n = if note = n then 1 else 0 := by
  unfold countNote
  by_cases h : note = n <;> simp [h]

theorem buttonNote_inj (idx NB : Nat) (hNB : BUTTON_IXES[idx + 8]? = some NB) :
    ∀ j, BUTTON_IXES[j + 8]? = some NB → j = idx := by
  intro j hj
  have hnd : BUTTON_IXES.Nodup := by decide
  have h1 : j + 8 < BUTTON_IXES.length := by
    by_contra hc
    rw [List.getElem?_eq_none (by omega)] at hj
    cases hj
  have := List.getElem?_inj h1 hnd (hj.trans hNB.symm)
  omega

theorem meterStep_oob (thr : ℚ) (args : List ℚ) (j target : Nat) (s : St)
    (ms : List MidiOut) (h : args[target]? = none) :
    meterStep thr args j (some target) s ms = (s, ms) := by
  simp [meterStep, h]

theorem meterStep_skip (thr : ℚ) (args : List ℚ) (j target : Nat) (s : St)
    (ms : List MidiOut) (v : ℚ) (hv : args[target]? = some v)
    (hc : dlookup s.meterCache target = some (decide (thr ≤ v / 32768 + 1))) :
    meterStep thr args j (some target) s ms = (s, ms) := by
  simp [meterStep, hv, hc]

theorem meterStep_emit_noNote (thr : ℚ) (args : List ℚ) (j target : Nat) (s : St)
    (ms : List MidiOut) (v : ℚ) (hv : args[target]? = some v)
    (hc : ¬(dlookup s.meterCache target = some (decide (thr ≤ v / 32768 + 1))))
    (hn : BUTTON_IXES[j + 8]? = none) :
    meterStep thr args j (some target) s ms = (s, ms) := by
  simp [meterStep, hv, hc, hn]

theorem meterStep_emit (thr : ℚ) (args : List ℚ) (j target : Nat) (s : St)
    (ms : List MidiOut) (v : ℚ) (note : Nat) (hv : args[target]? = some v)
    (hc : ¬(dlookup s.meterCache target = some (decide (thr ≤ v / 32768 + 1))))
    (hn : BUTTON_IXES[j + 8]? = some note) :
    meterStep thr args j (some target) s ms =
      ({ s with meterCache := dinsert s.meterCache target (decide (thr ≤ v / 32768 + 1)) },
       ms ++ [MidiOut.note_on 0 note (if decide (thr ≤ v / 32768 + 1) then 127 else 0)]) := by
  simp [meterStep, hv, hc, hn]

theorem metersGo_other (thr : ℚ) (args : List ℚ) (target idx NB : Nat)
    (hNB : BUTTON_IXES[idx + 8]? = some NB) :
    ∀ (ts : List (Option Nat)) (j : Nat) (s : St) (ms : List MidiOut),
      (∀ ot ∈ ts, ot ≠ some target) →
      (∀ i : Nat, i < ts.length → j + i ≠ idx) →
      dlookup (metersGo thr args j ts s ms).1.meterCache target =
        dlookup s.meterCache target ∧
      countNote (metersGo thr args j ts s ms).2 NB = countNote ms NB := by
  intro ts
  induction ts with
  | nil => intro j s ms _ _; exact ⟨rfl, rfl⟩
  | cons t rest ih =>
      intro j s ms hmem hpos
      rw [metersGo]
      have hj : j ≠ idx := by
        have := hpos 0 (by simp)
        omega
      have hstep : dlookup (meterStep thr args j t s ms).1.meterCache target =
          dlookup s.meterCache target ∧
          countNote (meterStep thr args j t s ms).2 NB = countNote ms NB := by
        cases t with
        | none => exact ⟨rfl, rfl⟩
        | some tt =>
            have htt : tt ≠ target := by
              have h := hmem (some tt) (List.mem_cons_self _ _)
              intro he
              exact h (by rw [he])
            cases hvt : args[tt]? with
            | none => rw [meterStep_oob thr args j tt s ms hvt]; exact ⟨rfl, rfl⟩
            | some w =>
                by_cases hcc : dlookup s.meterCache tt =
                    some (decide (thr ≤ w / 32768 + 1))
                · rw [meterStep_skip thr args j tt s ms w hvt hcc]; exact ⟨rfl, rfl⟩
                · cases hn : BUTTON_IXES[j + 8]? with
                  | none =>
                      rw [meterStep_emit_noNote thr args j tt s ms w hvt hcc hn]
                      exact ⟨rfl, rfl⟩
                  | some note =>
                      rw [meterStep_emit thr args j tt s ms w note hvt hcc hn]
                      refine ⟨dlookup_dinsert_ne _ _ _ _ htt, ?_⟩
                      rw [countNote_append, countNote_single_note,
                        if_neg (fun (he : note = NB) =>
                          hj (buttonNote_inj idx NB hNB j (he ▸ hn)))]
                      rfl
      obtain ⟨ih1, ih2⟩ := ih (j + 1) (meterStep thr args j t s ms).1
        (meterStep thr args j t s ms).2
        (fun ot h => hmem ot (List.mem_cons_of_mem _ h))
        (by intro i hi; have := hpos (i + 1) (by simpa using Nat.succ_lt_succ hi); omega)
      exact ⟨ih1.trans hstep.1, ih2.trans hstep.2⟩

theorem metersGo_no_new (thr : ℚ) (args : List ℚ) (target idx NB : Nat) (L : Bool) (v : ℚ)
    (hNB : BUTTON_IXES[idx + 8]? = some NB)
    (hv : args[target]? = some v)
    (hL : decide (thr ≤ v / 32768 + 1) = L) :
    ∀ (ts : List (Option Nat)) (j : Nat) (s : St) (ms : List MidiOut),
      dlookup s.meterCache target = some L →
      (∀ i ot, ts[i]? = some ot → ot = some target → j + i = idx) →
      (∀ i ot, ts[i]? = some ot → j + i = idx → ot = some target) →
      dlookup (metersGo thr args j ts s ms).1.meterCache target = some L ∧
      countNote (metersGo thr args j ts s ms).2 NB = countNote ms NB := by
  intro ts
  induction ts with
  | nil => intro j s ms hc _ _; exact ⟨hc, rfl⟩
  | cons t rest ih =>
      intro j s ms hc huniq hpos
      rw [metersGo]
      have hstep : dlookup (meterStep thr args j t s ms).1.meterCache target = some L ∧
          countNote (meterStep thr args j t s ms).2 NB = countNote ms NB := by
        cases t with
        | none => exact ⟨hc, rfl⟩
        | some tt =>
            by_cases htt : tt = target
            · subst htt
              rw [meterStep_skip thr args j tt s ms v hv (by rw [hL]; exact hc)]
              exact ⟨hc, rfl⟩
            · have hj : j ≠ idx := by
                intro he
                have := hpos 0 (some tt) (by simp) (by omega)
                exact htt (Option.some.inj this)
              cases hvt : args[tt]? with
              | none => rw [meterStep_oob thr args j tt s ms hvt]; exact ⟨hc, rfl⟩
              | some w =>
                  by_cases hcc : dlookup s.meterCache tt =
                      some (decide (thr ≤ w / 32768 + 1))
                  · rw [meterStep_skip thr args j tt s ms w hvt hcc]; exact ⟨hc, rfl⟩
                  · cases hn : BUTTON_IXES[j + 8]? with
                    | none =>
                        rw [meterStep_emit_noNote thr args j tt s ms w hvt hcc hn]
                        exact ⟨hc, rfl⟩
                    | some note =>
                        rw [meterStep_emit thr args j tt s ms w note hvt hcc hn]
                        refine ⟨?_, ?_⟩
                        · rw [dlookup_dinsert_ne _ _ _ _ htt]
                          exact hc
                        · rw [countNote_append, countNote_single_note,
                            if_neg (fun (he : note = NB) =>
                              hj (buttonNote_inj idx NB hNB j (he ▸ hn)))]
                          rfl
      obtain ⟨ih1, ih2⟩ := ih (j + 1) (meterStep thr args j t s ms).1
        (meterStep thr args j t s ms).2 hstep.1
        (by
          intro i ot h1 h2
          have := huniq (i + 1) ot (by simpa using h1) h2
          omega)
        (by
          intro i ot h1 h2
          exact hpos (i + 1) ot (by simpa using h1) (by omega))
      exact ⟨ih1, ih2.trans hstep.2⟩

theorem metersGo_append_list (thr : ℚ) (args : List ℚ) :
    ∀ (l1 l2 : List (Option Nat)) (j : Nat) (s : St) (ms : List MidiOut),
      metersGo thr args j (l1 ++ l2) s ms =
        metersGo thr args (j + l1.length) l2 (metersGo thr args j l1 s ms).1
          (metersGo thr args j l1 s ms).2 := by
  intro l1
  induction l1 with
  | nil => intro l2 j s ms; simp [metersGo]
  | cons t rest ih =>
      intro l2 j s ms
      rw [List.cons_append, metersGo, metersGo, ih]
      congr 1
      simp [Nat.add_comm, Nat.add_assoc]
      omega

theorem metersGo_first (thr : ℚ) (args : List ℚ) (target idx NB : Nat) (L : Bool) (v : ℚ)
    (hNB : BUTTON_IXES[idx + 8]? = some NB)
    (hv : args[target]? = some v)
    (hL : decide (thr ≤ v / 32768 + 1) = L)
    (meters : List (Option Nat))
    (hslot : meters[idx]? = some (some target))
    (huniq : ∀ j ot, meters[j]? = some ot → ot = some target → j = idx)
    (s : St) (ms : List MidiOut)
    (hmiss : dlookup s.meterCache target = none) :
    dlookup (metersGo thr args 0 meters s ms).1.meterCache target = some L ∧
    countNote (metersGo thr args 0 meters s ms).2 NB = countNote ms NB + 1 := by
  have hlen : idx < meters.length := by
    rcases List.getElem?_eq_some_iff.mp hslot with ⟨h, -⟩
    exact h
  have hget : meters[idx] = some target := by
    have h2 := List.getElem?_eq_getElem hlen
    rw [hslot] at h2
    exact (Option.some.inj h2).symm
  have hsplit : meters = meters.take idx ++ some target :: meters.drop (idx + 1) := by
    have hdrop : meters.drop idx = some target :: meters.drop (idx + 1) := by
      rw [List.drop_eq_getElem_cons hlen, hget]
    calc meters = meters.take idx ++ meters.drop idx :=
          (List.take_append_drop idx meters).symm
      _ = meters.take idx ++ some target :: meters.drop (idx + 1) := by rw [hdrop]
  have hlen_take : (meters.take idx).length = idx := by
    rw [List.length_take]
    omega
  -- the prefix before position idx never touches the slot or its note
  have hpre := metersGo_other thr args target idx NB hNB (meters.take idx) 0 s ms
    (by
      intro ot hmemT
      obtain ⟨i, hi⟩ := List.mem_iff_getElem?.mp hmemT
      have hilt : i < idx := by
        rcases List.getElem?_eq_some_iff.mp hi with ⟨hh, -⟩
        omega
      rw [List.getElem?_take, if_pos hilt] at hi
      intro he
      have := huniq i ot hi he
      omega)
    (by
      intro i hi
      rw [hlen_take] at hi
      omega)
  -- process the slot itself
  have hmid : dlookup (metersGo thr args 0 (meters.take idx) s ms).1.meterCache target =
      none := by
    rw [hpre.1, hmiss]
  have hemit := meterStep_emit thr args idx target
    (metersGo thr args 0 (meters.take idx) s ms).1
    (metersGo thr args 0 (meters.take idx) s ms).2 v NB hv
    (by rw [hmid]; intro h; cases h) hNB
  -- the suffix after position idx never touches the slot or its note
  have hsuf := metersGo_other thr args target idx NB hNB (meters.drop (idx + 1)) (idx + 1)
    ({ (metersGo thr args 0 (meters.take idx) s ms).1 with
        meterCache := dinsert (metersGo thr args 0 (meters.take idx) s ms).1.meterCache
          target (decide (thr ≤ v / 32768 + 1)) })
    ((metersGo thr args 0 (meters.take idx) s ms).2 ++
      [MidiOut.note_on 0 NB (if decide (thr ≤ v / 32768 + 1) then 127 else 0)])
    (by
      intro ot hmemD
      obtain ⟨i, hi⟩ := List.mem_iff_getElem?.mp hmemD
      rw [List.getElem?_drop] at hi
      intro he
      have := huniq (idx + 1 + i) ot hi he
      omega)
    (by intro i _; omega)
  rw [hsplit, metersGo_append_list, hlen_take]
  have hzero : 0 + idx = idx := by omega
  rw [hzero, metersGo, hemit]
  refine ⟨?_, ?_⟩
  · rw [hsuf.1]
    simp only [dlookup_dinsert_self]
    rw [hL]
  · rw [hsuf.2, countNote_append, countNote_single_note, if_pos rfl, hpre.2]

theorem handle_meters_currentLayer (cfg : Config) (args : List ℚ) (st : St) :
    (handle_meters cfg args st).1.currentLayer = st.currentLayer := by
  unfold handle_meters
  split
  · rfl
  · exact (metersGo_frame _ args _ 0 st []).2.1

theorem batches_no_new (cfg : Config) (layer : LayerConfig) (target idx NB : Nat) (L : Bool)
    (hslot : layer.meters[idx]? = some (some target))
    (huniq : ∀ j ot, layer.meters[j]? = some ot → ot = some target → j = idx)
    (hNB : BUTTON_IXES[idx + 8]? = some NB) :
    ∀ (bs : List (List ℚ)) (s : St),
      cfg.layers[s.currentLayer]? = some layer →
      dlookup s.meterCache target = some L →
      (∀ batch ∈ bs, ∃ w : ℚ, batch[target]? = some w ∧
        decide (cfg.meter_threshold.getD (1 / 2) ≤ w / 32768 + 1) = L) →
      countNote (handle_meters_batches cfg bs s).2 NB = 0 ∧
      dlookup (handle_meters_batches cfg bs s).1.meterCache target = some L := by
  intro bs
  induction bs with
  | nil => intro s _ hc _; exact ⟨rfl, hc⟩
  | cons b rest ih =>
      intro s hlay hc hall
      obtain ⟨w, hw, hLw⟩ := hall b (List.mem_cons_self _ _)
      have hfst : (handle_meters cfg b s).1 =
          (metersGo (cfg.meter_threshold.getD (1 / 2)) b 0 layer.meters s []).1 := by
        simp only [handle_meters, hlay]
      have hsnd : (handle_meters cfg b s).2.1 =
          (metersGo (cfg.meter_threshold.getD (1 / 2)) b 0 layer.meters s []).2 := by
        simp only [handle_meters, hlay]
      have hnn := metersGo_no_new (cfg.meter_threshold.getD (1 / 2)) b target idx NB L w
        hNB hw hLw layer.meters 0 s [] hc
        (by
          intro i ot h1 h2
          have := huniq i ot h1 h2
          omega)
        (by
          intro i ot h1 h2
          have hi : i = idx := by omega
          subst hi
          rw [hslot] at h1
          exact (Option.some.inj h1).symm)
      have hlay2 : cfg.layers[(handle_meters cfg b s).1.currentLayer]? = some layer := by
        rw [handle_meters_currentLayer]
        exact hlay
      obtain ⟨ihc, ihL⟩ := ih (handle_meters cfg b s).1 hlay2
        (by rw [hfst]; exact hnn.1)
        (fun batch hb => hall batch (List.mem_cons_of_mem _ hb))
      constructor
      · rw [handle_meters_batches, countNote_append]
        have h1 : countNote (handle_meters cfg b s).2.1 NB = 0 := by
          rw [hsnd]
          exact hnn.2
        rw [h1, ihc]
      · rw [handle_meters_batches]
        exact ihL

/-- C4: for a sequence of meter batches in which a configured slot's
mapped intensity (`value/32768 + 1`, compared with the threshold,
default 0.5) yields the same boolean `lit` in every batch, and the slot
starts absent from `MeterLightCache`, exactly one LED message for that
slot's note is emitted — on the first batch — and none over all later
batches, regardless of the sequence length. -/
theorem c4_meter_edge_triggered (cfg : Config) (layer : LayerConfig) (st : St)
    (idx target NB : Nat) (L : Bool) (b : List ℚ) (bs : List (List ℚ))
    (hlayer : cfg.layers[st.currentLayer]? = some layer)
    (hslot : layer.meters[idx]? = some (some target))
    (huniq : ∀ j ot, layer.meters[j]? = some ot → ot = some target → j = idx)
    (hNB : BUTTON_IXES[idx + 8]? = some NB)
    (hmiss : dlookup st.meterCache target = none)
    (hconst : ∀ batch ∈ b :: bs, ∃ w : ℚ, batch[target]? = some w ∧
      decide (cfg.meter_threshold.getD (1 / 2) ≤ w / 32768 + 1) = L) :
    countNote (handle_meters cfg b st).2.1 NB = 1 ∧
    countNote (handle_meters_batches cfg bs (handle_meters cfg b st).1).2 NB = 0 := by
  obtain ⟨w, hw, hLw⟩ := hconst b (List.mem_cons_self _ _)
  have hfst : (handle_meters cfg b st).1 =
      (metersGo (cfg.meter_threshold.getD (1 / 2)) b 0 layer.meters st []).1 := by
    simp only [handle_meters, hlayer]
  have hsnd : (handle_meters cfg b st).2.1 =
      (metersGo (cfg.meter_threshold.getD (1 / 2)) b 0 layer.meters st []).2 := by
    simp only [handle_meters, hlayer]
  have hfirst := metersGo_first (cfg.meter_threshold.getD (1 / 2)) b target idx NB L w
    hNB hw hLw layer.meters hslot huniq st [] hmiss
  constructor
  · rw [hsnd, hfirst.2]
    rfl
  · have hlay2 : cfg.layers[(handle_meters cfg b st).1.currentLayer]? = some layer := by
      rw [handle_meters_currentLayer]
      exact hlayer
    have hcache : dlookup (handle_meters cfg b st).1.meterCache target = some L := by
      rw [hfst]
      exact hfirst.1
    exact (batches_no_new cfg layer target idx NB L hslot huniq hNB bs
      (handle_meters cfg b st).1 hlay2 hcache
      (fun batch hb => hconst batch (List.mem_cons_of_mem _ hb))).1

/-- Layer for the C4 witness: one configured meter slot, index 0. -/
def layerW4 : LayerConfig :=
  { encoders := [], buttons := [], mutegroups := [], meters := [some 0],
    enable_zero := none, invert_buttons := none, encoder_style := none,
    encoder_sensitivity := none }

/-- Configuration for the C4 witness. -/
def cfgW4 : Config := { layers := [layerW4], meter_threshold := none, big_fader := none }

/-- A constant meter batch (intensity 2, above any default threshold). -/
def batchW4 : List ℚ := [32768]

/-- Witness for C4: with the constant batch repeated three times, exactly
one LED message for note 87 is emitted, on the first batch. -/
theorem c4_meter_edge_triggered_witness :
    countNote (handle_meters cfgW4 batchW4 st0).2.1 87 = 1 ∧
    countNote (handle_meters_batches cfgW4 [batchW4, batchW4]
      (handle_meters cfgW4 batchW4 st0).1).2 87 = 0 := by
  apply c4_meter_edge_triggered cfgW4 layerW4 st0 0 0 87 true batchW4 [batchW4, batchW4]
    rfl rfl ?_ rfl rfl ?_
  · intro j ot h1 _
    cases j with
    | zero => rfl
    | succ n => simp [layerW4] at h1
  · intro batch hb
    simp only [List.mem_cons, List.not_mem_nil, or_false] at hb
    have hbe : batch = batchW4 := by
      rcases hb with h | h | h <;> exact h
    subst hbe
    refine ⟨32768, rfl, ?_⟩
    rw [decide_eq_true_eq]
    norm_num [cfgW4]

end Midi
